import Mathlib

/-!
# Verification of the pychain overlay-network core

Shallow embedding of the pychain node implementation:

* `src/package/pychain/node/models.py` — `GUID` ring math
  (`_get_network`, `get_primary_peers`, `get_backup_peers`) and `Peer`
  equality; `Message` construction.
* `src/apps/node/api/v1/endpoints.py` — the HTTP handlers `_network_join`,
  `_broadcast` and `_sync`, modelled as pure state-transition functions on
  the cache fields they read and write.
* `src/package/pychain/node/db.py` — `Database.update_message_count_if_less_than`.

GUIDs are modelled as `Nat` (the code only ever constructs them from
non-negative allocation counters and JSON integers produced by the boot
node); message ids and the broadcast counter are modelled as `Int`
(arbitrary JSON integers flow into the `id > count` comparison).
Fallible Python code (exceptions) is modelled with `Except String`.
-/

namespace PyChain

/-! ## Python list slicing

The file `models.py` builds the ring with the slices `seq[offset::]` and
`seq[:offset:]` where `offset = int(guid_max) - self.id` is a Python `int`
that may be negative.  `pySliceFrom s a` is Python `s[a:]` and
`pySliceTo s a` is Python `s[:a]`: a negative index counts from the end of
the list, clamped at 0. -/

def pySliceFrom (s : List Nat) (a : Int) : List Nat :=
  if 0 ≤ a then s.drop a.toNat else s.drop ((s.length : Int) + a).toNat

def pySliceTo (s : List Nat) (a : Int) : List Nat :=
  if 0 ≤ a then s.take a.toNat else s.take ((s.length : Int) + a).toNat

/-! ## Ring math (`GUID` methods of `models.py`) -/

/-- Embedding of `GUID._get_network` (models.py lines 95-138):
`seq = [*range(int(guid_max) + 1)][::-1]`, `offset = int(guid_max) - self.id`,
`ids = seq[offset::] + seq[:offset:]`.  Note that the sequence ranges over
`{0 .. guid_max}`: GUID 0 is part of the ring. -/
def _get_network (selfId guidMax : Nat) : List Nat :=
  let seq := (List.range (guidMax + 1)).reverse
  let offset : Int := (guidMax : Int) - (selfId : Int)
  pySliceFrom seq offset ++ pySliceTo seq offset

/-- The loop body of `GUID.get_primary_peers` (models.py lines 160-167):
`distance = 1; while distance <= guid_max.id: append network[distance]; distance *= 2`.
The guard `0 < distance` is an invariant of the source loop (`distance`
starts at 1 and doubles); it is made explicit here so that the recursion
terminates for every argument. -/
def primaryPeersLoop (network : List Nat) (guidMax distance : Nat) : List Nat :=
  if h : 0 < distance ∧ distance ≤ guidMax then
    network.getD distance 0 :: primaryPeersLoop network guidMax (distance * 2)
  else
    []
termination_by guidMax + 1 - distance
decreasing_by omega

/-- Embedding of `GUID.get_primary_peers` (models.py lines 140-167). -/
def get_primary_peers (selfId guidMax : Nat) : List Nat :=
  primaryPeersLoop (_get_network selfId guidMax) guidMax 1

/-- Embedding of `GUID.get_backup_peers` (models.py lines 47-93).  `list.index` raises
`ValueError` for a missing element, which the method converts to
`GUIDNotInNetwork`; the slice `network[start_idx + 1 : stop_idx]` is taken
when `stop_idx > start_idx`, otherwise `network[start_idx + 1 :]`. -/
def get_backup_peers (selfId start_guid stop_guid guid_max : Nat) :
    Except String (List Nat) :=
  let network := _get_network selfId guid_max
  if start_guid ∈ network then
    if stop_guid ∈ network then
      let start_idx := network.indexOf start_guid
      let stop_idx := network.indexOf stop_guid
      if stop_idx > start_idx then
        .ok ((network.drop (start_idx + 1)).take (stop_idx - (start_idx + 1)))
      else
        .ok (network.drop (start_idx + 1))
    else
      .error "GUIDNotInNetwork"
  else
    .error "GUIDNotInNetwork"

/-! ## Peer equality (`models.py` lines 195-221)

`Peer.__init__` accepts `guid=None`; `Peer.__eq__` delegates to
`GUID.__eq__`, which reads `other.id`.  Comparing a `GUID` with `None`
therefore raises `AttributeError` (in either order, via Python's reflected
comparison), while `None == None` is `True`.  Addresses never enter the
comparison. -/

structure Peer where
  guid : Option Nat
  address : Option String

/-- Embedding of `GUID.__eq__` (models.py lines 29-30) lifted to the optional guids a
`Peer` may hold: `self.id == other.id` when both are `GUID`s. -/
def GUID_eq : Option Nat → Option Nat → Except String Bool
  | some a, some b => .ok (a == b)
  | none, none => .ok true
  | _, _ => .error "AttributeError: NoneType object has no attribute id"

/-- Embedding of `Peer.__eq__` (models.py lines 202-203): `self.guid == other.guid`. -/
def Peer_eq (a b : Peer) : Except String Bool :=
  GUID_eq a.guid b.guid

/-! ## The join endpoint (`endpoints.py` lines 80-140)

`_network_join` reads and writes `cache.network_guid` (the allocation
counter / highest known GUID) and `cache.guid_map` (GUID → address).
The guid map is modelled as an insertion-ordered association list with
Python-dict update semantics.  The HTTP response is `Option (String × Nat)`:
`none` is the empty response `{}`, `some (address, guid)` is
`{"address": ..., "guid": ...}`. -/

def dictContains {α β : Type} [BEq α] (m : List (α × β)) (k : α) : Bool :=
  m.any (fun p => p.1 == k)

/-- Python `d[k] = v`: overwrite in place if the key exists, else append. -/
def dictSet {α β : Type} [BEq α] (m : List (α × β)) (k : α) (v : β) :
    List (α × β) :=
  if dictContains m k then
    m.map (fun p => if p.1 == k then (k, v) else p)
  else
    m ++ [(k, v)]

def dictGet? {α β : Type} [BEq α] (m : List (α × β)) (k : α) : Option β :=
  (m.find? (fun p => p.1 == k)).map (fun p => p.2)

/-- The dict comprehension built at endpoints.py
line 94 — `{addr: guid for guid, addr in cache.guid_map.items()}`: inverted map built in iteration order, later entries winning. -/
def addressMapOf (m : List (Nat × String)) : List (String × Nat) :=
  m.foldl (fun am p => dictSet am p.2 p.1) []

/-- The cache fields `_network_join` touches. -/
structure JoinState where
  network_guid : Option Nat
  guid_map : List (Nat × String)
deriving DecidableEq

/-- Embedding of `_network_join` (endpoints.py lines 80-140) as a function of the boot
flag, the stored state, the sender's address and the optional `guid` field
of the request body.  Returns the response and the updated state.  The
`none` fallback of the already-joined branch is dead code: that branch is
only reached when `sender_address` is a key of `address_map`. -/
def _network_join (is_boot_node : Bool) (st : JoinState)
    (sender_address : String) (data_guid : Option Nat) :
    Option (String × Nat) × JoinState :=
  if is_boot_node then
    let address_map := addressMapOf st.guid_map
    match data_guid with
    | some guid =>
      -- sender re-joins with a GUID included in the request
      if dictContains st.guid_map guid then
        (some (sender_address, guid),
          { st with guid_map := dictSet st.guid_map guid sender_address })
      else
        (none, st)
    | none =>
      if ¬ dictContains address_map sender_address then
        -- sender joins for the first time
        let network_guid :=
          match st.network_guid with
          | none => 0
          | some n => n + 1
        (some (sender_address, network_guid),
          { network_guid := some network_guid,
            guid_map := dictSet st.guid_map network_guid sender_address })
      else
        -- sender already joined
        match dictGet? address_map sender_address with
        | some guid => (some (sender_address, guid), st)
        | none => (none, st)
  else
    (none, st)

/-! ## The sync endpoint (`endpoints.py` lines 163-181) -/

/-- Embedding of `_sync`: takes the stored `cache.network_guid` and the sender's
`guid`; returns the integer response together with the new stored value.
`max` is Python `max(GUID(sender["guid"]), cache.network_guid)`, comparing
by id. -/
def _sync (network_guid : Option Nat) (sender_guid : Nat) : Nat × Option Nat :=
  match network_guid with
  | none => (sender_guid, some sender_guid)
  | some g => (max sender_guid g, some (max sender_guid g))

/-! ## The broadcast endpoint (`endpoints.py` lines 29-69)

The handler decodes the request JSON into `msg_dct` and calls
`Message(**msg_dct)`.  `Message.__init__` (models.py lines 170-175) has
exactly the parameters `body`, `id`, `originator`, `broadcast_timestamp`;
any other key in the JSON body — a `ttl` or a `seen_by` field in
particular — raises `TypeError`.  `MsgDict` models the decoded body:
`ttl`/`seen_by` are `some` when the corresponding key is present. -/

structure MsgDict where
  body : Int
  id : Option Int
  originatorGuid : Nat
  originatorAddress : String
  broadcast_timestamp : Option Int
  ttl : Option Int
  seen_by : Option (List Nat)

/-- A constructed `Message` (models.py lines 170-175). -/
structure Msg where
  body : Int
  id : Option Int
  originatorGuid : Nat
  originatorAddress : String
  broadcast_timestamp : Option Int

/-- Python `Message(**msg_dct)`: `TypeError` on any keyword argument that is not
a parameter of `Message.__init__`. -/
def Message_ctor (d : MsgDict) : Except String Msg :=
  if d.ttl ≠ none ∨ d.seen_by ≠ none then
    .error "TypeError: __init__ got an unexpected keyword argument"
  else
    .ok ⟨d.body, d.id, d.originatorGuid, d.originatorAddress,
      d.broadcast_timestamp⟩

/-- Embedding of `_broadcast` (endpoints.py lines 29-69) as a function of the client's
guid (`cache.guid`, assumed set), the stored `cache.message_id_count` and
the decoded request body.  Returns the response `should_broadcast`
together with the new counter; fan-out happens exactly when the returned
Bool is `true`.  The `message.id > cache.message_id_count` comparison
raises `TypeError` when `message.id` is `None`. -/
def _broadcast (clientGuid : Nat) (message_id_count : Int) (d : MsgDict) :
    Except String (Bool × Int) := do
  let message ← Message_ctor d
  if message.originatorGuid = clientGuid ∧ message.broadcast_timestamp = none ∧
      message.id = none then
    pure (true, message_id_count + 1)
  else
    match message.id with
    | none => .error "TypeError: unorderable types NoneType and int"
    | some i =>
      if i > message_id_count then
        pure (true, i)
      else
        pure (false, message_id_count)

/-! ## The broadcast counter of the relational store (`db.py` lines 139-148)

`Database.update_message_count_if_less_than` executes
`UPDATE messages SET counter = $1 WHERE id=1 AND $1 > (SELECT counter ...)`
and reports whether a row was updated. -/

def update_message_count_if_less_than (counter count : Int) : Bool × Int :=
  if count > counter then (true, count) else (false, counter)

/-! ## Concrete inputs used by counterexamples and witnesses -/

/-- A broadcast body carrying the spec's `ttl`/`seen_by` fields: `ttl` is 0
and `seen_by` already contains the receiving client's GUID 2, while the
originator is GUID 1 ≠ 2. -/
def msgWithTtl : MsgDict :=
  { body := 0
    id := some 1
    originatorGuid := 1
    originatorAddress := "10.0.0.1"
    broadcast_timestamp := some 5
    ttl := some 0
    seen_by := some [2] }

/-! ## Properties of the ring construction -/

theorem pySlice_append_eq_rotate (s : List Nat) (a : Int) :
    ∃ k ≤ s.length, pySliceFrom s a ++ pySliceTo s a = s.rotate k := by
  unfold pySliceFrom pySliceTo
  by_cases h : 0 ≤ a
  · rw [if_pos h, if_pos h]
    by_cases hl : a.toNat ≤ s.length
    · exact ⟨a.toNat, hl, (List.rotate_eq_drop_append_take hl).symm⟩
    · refine ⟨s.length, le_refl _, ?_⟩
      rw [List.rotate_length, List.drop_eq_nil_of_le (by omega),
        List.take_of_length_le (by omega)]
      simp
  · rw [if_neg h, if_neg h]
    exact ⟨((s.length : Int) + a).toNat, by omega,
      (List.rotate_eq_drop_append_take (by omega)).symm⟩

theorem _get_network_eq_rotate (g m : Nat) :
    ∃ k ≤ m + 1, _get_network g m = ((List.range (m + 1)).reverse).rotate k := by
  have h := pySlice_append_eq_rotate ((List.range (m + 1)).reverse)
    ((m : Int) - (g : Int))
  simpa [_get_network] using h

theorem _get_network_perm (g m : Nat) :
    (_get_network g m).Perm (List.range (m + 1)) := by
  obtain ⟨k, -, hk⟩ := _get_network_eq_rotate g m
  rw [hk]
  exact (List.rotate_perm _ k).trans (List.reverse_perm _)

theorem _get_network_length (g m : Nat) : (_get_network g m).length = m + 1 := by
  simpa using (_get_network_perm g m).length_eq

theorem _get_network_nodup (g m : Nat) : (_get_network g m).Nodup :=
  ((_get_network_perm g m).nodup_iff).2 (List.nodup_range _)

theorem mem_get_network {g m x : Nat} : x ∈ _get_network g m ↔ x < m + 1 := by
  rw [(_get_network_perm g m).mem_iff, List.mem_range]

theorem _get_network_eq_of_le {g m : Nat} (h : g ≤ m) :
    _get_network g m =
      ((List.range (m + 1)).reverse).drop (m - g) ++
        ((List.range (m + 1)).reverse).take (m - g) := by
  have h0 : (0 : Int) ≤ (m : Int) - (g : Int) := by omega
  simp only [_get_network, pySliceFrom, pySliceTo, if_pos h0]
  rw [Int.toNat_sub]

theorem _get_network_head {g m : Nat} (h : g ≤ m) :
    (_get_network g m).head? = some g := by
  rw [_get_network_eq_of_le h, List.head?_eq_getElem?]
  have hlen : ((List.range (m + 1)).reverse).length = m + 1 := by simp
  rw [List.getElem?_append_left (by simp; omega), List.getElem?_drop]
  have hidx : m - g + 0 < ((List.range (m + 1)).reverse).length := by simp; omega
  rw [List.getElem?_eq_getElem hidx]
  simp
  omega

theorem primaryPeersLoop_pos_eq (net : List Nat) (m d : Nat) (hd : 0 < d)
    (hdm : d ≤ m) :
    primaryPeersLoop net m d = net.getD d 0 :: primaryPeersLoop net m (d * 2) := by
  rw [primaryPeersLoop]
  rw [dif_pos ⟨hd, hdm⟩]

theorem primaryPeersLoop_neg_eq (net : List Nat) (m d : Nat)
    (h : ¬ (0 < d ∧ d ≤ m)) : primaryPeersLoop net m d = [] := by
  rw [primaryPeersLoop]
  rw [dif_neg h]

theorem primaryPeersLoop_length (net : List Nat) (m : Nat) :
    ∀ n d, m + 1 - d = n → 0 < d → d ≤ m →
      (primaryPeersLoop net m d).length = Nat.log 2 (m / d) + 1 := by
  intro n
  induction n using Nat.strong_induction_on with
  | _ n ih =>
    intro d hn hd hdm
    rw [primaryPeersLoop_pos_eq net m d hd hdm, List.length_cons]
    by_cases h2 : d * 2 ≤ m
    · rw [ih (m + 1 - d * 2) (by omega) (d * 2) rfl (by omega) h2]
      have hdiv : m / (d * 2) = m / d / 2 := (Nat.div_div_eq_div_mul m d 2).symm
      have h2le : 2 ≤ m / d := (Nat.le_div_iff_mul_le hd).2 (by omega)
      have hlog : Nat.log 2 (m / d / 2) = Nat.log 2 (m / d) - 1 :=
        Nat.log_div_base 2 (m / d)
      have hpos : 0 < Nat.log 2 (m / d) := Nat.log_pos (by norm_num) h2le
      rw [hdiv, hlog]
      omega
    · rw [primaryPeersLoop_neg_eq net m (d * 2) (by omega)]
      have h1 : 1 ≤ m / d := (Nat.one_le_div_iff hd).2 hdm
      have h2' : m / d < 2 := (Nat.div_lt_iff_lt_mul hd).2 (by omega)
      have : m / d = 1 := by omega
      simp [this]

theorem primaryPeersLoop_subset (net : List Nat) (m : Nat) (hlen : m < net.length) :
    ∀ n d, m + 1 - d = n → ∀ x ∈ primaryPeersLoop net m d,
      ∃ j, d ≤ j ∧ j ≤ m ∧ ∃ hj : j < net.length, x = net[j] := by
  intro n
  induction n using Nat.strong_induction_on with
  | _ n ih =>
    intro d hn x hx
    by_cases hcond : 0 < d ∧ d ≤ m
    · rw [primaryPeersLoop_pos_eq net m d hcond.1 hcond.2] at hx
      rcases List.mem_cons.mp hx with h | h
      · have hd : d < net.length := by omega
        refine ⟨d, le_refl d, hcond.2, hd, ?_⟩
        rw [h]
        simp [List.getElem?_eq_getElem hd]
      · obtain ⟨j, hj1, hj2, hj3, hj4⟩ :=
          ih (m + 1 - d * 2) (by omega) (d * 2) rfl x h
        exact ⟨j, by omega, hj2, hj3, hj4⟩
    · rw [primaryPeersLoop_neg_eq net m d hcond] at hx
      simp at hx

theorem primaryPeersLoop_nodup (net : List Nat) (m : Nat) (hlen : m < net.length)
    (hnd : net.Nodup) :
    ∀ n d, m + 1 - d = n → (primaryPeersLoop net m d).Nodup := by
  intro n
  induction n using Nat.strong_induction_on with
  | _ n ih =>
    intro d hn
    by_cases hcond : 0 < d ∧ d ≤ m
    · rw [primaryPeersLoop_pos_eq net m d hcond.1 hcond.2]
      refine List.nodup_cons.mpr ⟨?_, ih (m + 1 - d * 2) (by omega) (d * 2) rfl⟩
      intro hmem
      obtain ⟨j, hj1, hj2, hj3, hj4⟩ :=
        primaryPeersLoop_subset net m hlen _ (d * 2) rfl _ hmem
      have hd : d < net.length := by omega
      have hgetd : net.getD d 0 = net[d] := by
        simp [List.getElem?_eq_getElem hd]
      rw [hgetd] at hj4
      have : d = j := hnd.getElem_inj_iff.mp hj4
      omega
    · rw [primaryPeersLoop_neg_eq net m d hcond]
      exact List.nodup_nil

theorem get_primary_peers_length {g m : Nat} (hm : 1 ≤ m) :
    (get_primary_peers g m).length = Nat.log 2 m + 1 := by
  have h := primaryPeersLoop_length (_get_network g m) m (m + 1 - 1) 1 rfl
    Nat.one_pos hm
  simpa using h

theorem get_primary_peers_le {g m : Nat} : ∀ x ∈ get_primary_peers g m, x ≤ m := by
  intro x hx
  obtain ⟨j, -, -, hj, hx⟩ := primaryPeersLoop_subset (_get_network g m) m
    (by rw [_get_network_length]; omega) (m + 1 - 1) 1 rfl x hx
  have : x ∈ _get_network g m := by
    rw [hx]
    exact List.getElem_mem hj
  exact Nat.lt_succ_iff.mp (mem_get_network.mp this)

theorem get_primary_peers_nodup (g m : Nat) : (get_primary_peers g m).Nodup :=
  primaryPeersLoop_nodup (_get_network g m) m
    (by rw [_get_network_length]; omega) (_get_network_nodup g m) (m + 1 - 1) 1 rfl

/-! ## Claims -/

/-- C1, counterexample.  The claim says the first `PUT /network/join` on a
boot node whose store starts empty returns the client's address together
with GUID 1.  It does not: `_network_join` allocates GUID 0 to the first
joiner (`cache.network_guid is None ⇒ cache.network_guid = GUID(0)`). -/
theorem C1_counterexample :
    ¬ ((_network_join true ⟨none, []⟩ "10.0.0.5" none).1
        = some ("10.0.0.5", 1)) := by
  decide

/-- C1, amended: on a boot node whose store starts with no nodes, the first
`PUT /network/join` with an empty body from `10.0.0.5` returns
`{"address": "10.0.0.5", "guid": 0}` and records the mapping, and a second
identical call from the same address returns the same address and the same
GUID 0, leaving the state unchanged. -/
theorem C1_first_join :
    _network_join true ⟨none, []⟩ "10.0.0.5" none
      = (some ("10.0.0.5", 0), ⟨some 0, [(0, "10.0.0.5")]⟩) ∧
    _network_join true ⟨some 0, [(0, "10.0.0.5")]⟩ "10.0.0.5" none
      = (some ("10.0.0.5", 0), ⟨some 0, [(0, "10.0.0.5")]⟩) := by
  constructor <;> rfl

/-- C2, counterexample.  The claim says a broadcast message with
`ttl == 0` or with the receiver's GUID in `seen_by` is not forwarded and
the handler returns false.  The code's `Message` has no `ttl` or `seen_by`
parameter at all: a body carrying them (here `ttl = 0`, `seen_by = [2]`,
receiver GUID 2, originator GUID 1) makes `Message(**msg_dct)` raise
`TypeError`, so the handler errors instead of returning false. -/
theorem C2_counterexample :
    _broadcast 2 0 msgWithTtl
        = Except.error "TypeError: __init__ got an unexpected keyword argument" ∧
    _broadcast 2 0 msgWithTtl ≠ Except.ok (false, 0) := by
  have h : _broadcast 2 0 msgWithTtl
      = Except.error "TypeError: __init__ got an unexpected keyword argument" := rfl
  exact ⟨h, by rw [h]; exact fun hc => Except.noConfusion hc⟩

/-- C2, amended: messages carry no `ttl` or `seen_by` field; every
incoming broadcast body that contains a `ttl` or a `seen_by` key makes the
handler raise `TypeError` from `Message(**msg_dct)` — it neither forwards
nor returns false. -/
theorem C2_amended (clientGuid : Nat) (count : Int) (d : MsgDict)
    (h : d.ttl ≠ none ∨ d.seen_by ≠ none) :
    _broadcast clientGuid count d
      = Except.error "TypeError: __init__ got an unexpected keyword argument" := by
  unfold _broadcast Message_ctor
  rw [if_pos h]
  rfl

/-- C2, witness for the amended theorem at the concrete body `msgWithTtl`. -/
theorem C2_amended_witness :
    (msgWithTtl.ttl ≠ none ∨ msgWithTtl.seen_by ≠ none) ∧
    _broadcast 2 0 msgWithTtl
      = Except.error "TypeError: __init__ got an unexpected keyword argument" :=
  ⟨by decide, C2_amended 2 0 msgWithTtl (by decide)⟩

/-- C3, counterexample.  The claim says the network sequence for `g` with
maximum `m` is a permutation of `{1..m}`.  At `g = 1`, `m = 1` the code
yields `[1, 0]` — GUID 0 is part of the ring — which is not a permutation
of `{1}`. -/
theorem C3_counterexample :
    ¬ ((_get_network 1 1).head? = some 1 ∧
        (_get_network 1 1).Perm (List.range' 1 1)) := by
  decide

/-- C3, amended: for `1 ≤ g ≤ m` the network sequence computed for `g`
has `g` as its first element and is a permutation of `{0..m}`. -/
theorem C3_amended {g m : Nat} (_hg : 1 ≤ g) (hgm : g ≤ m) :
    (_get_network g m).head? = some g ∧
    (_get_network g m).Perm (List.range (m + 1)) :=
  ⟨_get_network_head hgm, _get_network_perm g m⟩

/-- C3, witness for the amended theorem at `g = 5`, `m = 9`. -/
theorem C3_amended_witness :
    (1 ≤ 5 ∧ 5 ≤ 9) ∧
    ((_get_network 5 9).head? = some 5 ∧
      (_get_network 5 9).Perm (List.range 10)) :=
  ⟨by decide, C3_amended (by decide) (by decide)⟩

/-- C4, counterexample.  The claim says the primary-peers list for `g`
with maximum `m ≥ 1` has length `⌊log₂ m⌋` with every entry in `[1, m]`.
At `g = 1`, `m = 1` the code returns `[0]`: the length is 1, not
`⌊log₂ 1⌋ = 0` (and the entry 0 is below 1). -/
theorem C4_counterexample :
    ¬ ((get_primary_peers 1 1).length = Nat.log 2 1 ∧
        (∀ x ∈ get_primary_peers 1 1, 1 ≤ x ∧ x ≤ 1) ∧
        (get_primary_peers 1 1).Nodup) := by
  intro h
  have h11 : get_primary_peers 1 1 = [0] := by
    simp [get_primary_peers, primaryPeersLoop, _get_network, pySliceFrom,
      pySliceTo]
  have hlen := h.1
  rw [h11, Nat.log_one_right] at hlen
  simp at hlen

/-- C4, amended: for every `g` and every `m ≥ 1` the primary-peers list
has length `⌊log₂ m⌋ + 1`, every entry lies in `[0, m]`, and all entries
are distinct. -/
theorem C4_amended {g m : Nat} (hm : 1 ≤ m) :
    (get_primary_peers g m).length = Nat.log 2 m + 1 ∧
    (∀ x ∈ get_primary_peers g m, x ≤ m) ∧
    (get_primary_peers g m).Nodup :=
  ⟨get_primary_peers_length hm, get_primary_peers_le, get_primary_peers_nodup g m⟩

/-- C4, witness for the amended theorem at `g = 5`, `m = 9` (the list is
`[4, 3, 1, 7]`, of length `⌊log₂ 9⌋ + 1 = 4`). -/
theorem C4_amended_witness :
    1 ≤ 9 ∧
    ((get_primary_peers 5 9).length = Nat.log 2 9 + 1 ∧
      (∀ x ∈ get_primary_peers 5 9, x ≤ 9) ∧
      (get_primary_peers 5 9).Nodup) :=
  ⟨by decide, C4_amended (by decide)⟩

/-- C5, counterexample.  The claim says `backup_peers(6, 2, 8, 9) = [1, 9]`
and `backup_peers(9, 1, 9, 9) = []`.  The code (and its own docstring and
test suite) yields `[1, 0, 9]` for the first call — GUID 0 lies between 1
and 9 on the ring — so the claimed value is wrong. -/
theorem C5_counterexample :
    ¬ (get_backup_peers 6 2 8 9 = Except.ok [1, 9] ∧
        get_backup_peers 9 1 9 9 = Except.ok []) := by
  intro h
  have h1 : get_backup_peers 6 2 8 9 = Except.ok [1, 0, 9] := rfl
  rw [h1] at h
  simpa using h.1

/-- C5, amended: with maximum GUID 9 the backup-peer computation for node
6 between start 2 and stop 8 returns exactly `[1, 0, 9]`, and the one for
node 9 between start 1 and stop 9 returns `[0]`. -/
theorem C5_backup_examples :
    get_backup_peers 6 2 8 9 = Except.ok [1, 0, 9] ∧
    get_backup_peers 9 1 9 9 = Except.ok [0] :=
  ⟨rfl, rfl⟩

/-- C6, confirmed: on a node that is not a boot node, `_network_join`
returns the empty response for every stored state, sender address and
request body, and leaves the stored state unchanged — no GUID is
allocated. -/
theorem C6_nonboot_join (st : JoinState) (sender_address : String)
    (data_guid : Option Nat) :
    _network_join false st sender_address data_guid = (none, st) := rfl

/-- C7, confirmed: `update_message_count_if_less_than` reports an update
exactly when the incoming value exceeds the stored counter, and the stored
counter afterwards is the maximum of the two — so an incoming value that
is equal or lower reports false and leaves the counter unchanged. -/
theorem C7_counter_update (counter count : Int) :
    ((update_message_count_if_less_than counter count).1 = true ↔
        counter < count) ∧
    (update_message_count_if_less_than counter count).2 = max counter count := by
  unfold update_message_count_if_less_than
  by_cases h : count > counter
  · rw [if_pos h]
    exact ⟨by simpa using h, by simp [max_eq_right (le_of_lt h)]⟩
  · rw [if_neg h]
    exact ⟨by simpa using h, by simp [max_eq_left (by omega : count ≤ counter)]⟩

/-- C8, confirmed: when the stored highest-known network GUID is `v`, a
`POST /sync` with sender guid `g` stores and returns `max v g`; in
particular the stored value never decreases. -/
theorem C8_sync_max (v g : Nat) :
    _sync (some v) g = (max v g, some (max v g)) ∧ v ≤ (_sync (some v) g).1 := by
  constructor
  · simp [_sync, Nat.max_comm g v]
  · simp [_sync]

/-- C9, confirmed: two peers that both hold GUIDs compare equal exactly
when their GUIDs are equal, whatever their addresses are — the addresses
`addrA` and `addrB` do not occur in the equality. -/
theorem C9_peer_eq (ga gb : Nat) (addrA addrB : Option String) :
    (Peer_eq ⟨some ga, addrA⟩ ⟨some gb, addrB⟩ = Except.ok true) ↔ ga = gb := by
  simp [Peer_eq, GUID_eq]

/-- C10, confirmed: when the stored highest-known network GUID is unset,
`POST /sync` stores the sender's guid and returns it instead of failing. -/
theorem C10_sync_none (g : Nat) : _sync none g = (g, some g) := rfl

end PyChain
